import Mathlib

/-!
Verification development for the r.incora GRASS GIS modules
(v.incora.training_data, r.incora.postproc, r.incora.change).

Rasters are shallowly embedded as functions from pixels to optional
rational cell values, with `none` playing the role of the GRASS
no-data ("null") sentinel.  The r.mapcalc expression language is
embedded through a small three-valued algebra that follows the GRASS
semantics: comparisons and the plain logical operators propagate
null, while the special operators (written in mapcalc as three
ampersands or three pipes) satisfy the GRASS axioms that a false
operand forces false and a true operand forces true even when the
other operand is null.
-/

abbrev Pixel := Nat

abbrev Raster := Pixel → Option ℚ

namespace MC

/-- Greater-than comparison with null propagation: a > b. -/
def ogt (a b : Option ℚ) : Option Bool :=
  match a, b with
  | some x, some y => some (decide (y < x))
  | _, _ => none

/-- Less-than comparison with null propagation: a < b. -/
def olt (a b : Option ℚ) : Option Bool :=
  match a, b with
  | some x, some y => some (decide (x < y))
  | _, _ => none

/-- Less-or-equal comparison with null propagation: a <= b. -/
def ole (a b : Option ℚ) : Option Bool :=
  match a, b with
  | some x, some y => some (decide (x ≤ y))
  | _, _ => none

/-- Greater-or-equal comparison with null propagation: a >= b. -/
def oge (a b : Option ℚ) : Option Bool :=
  match a, b with
  | some x, some y => some (decide (y ≤ x))
  | _, _ => none

/-- Equality comparison with null propagation: a == b. -/
def oeq (a b : Option ℚ) : Option Bool :=
  match a, b with
  | some x, some y => some (decide (x = y))
  | _, _ => none

/-- Inequality comparison with null propagation: a != b. -/
def oneq (a b : Option ℚ) : Option Bool :=
  match a, b with
  | some x, some y => some (decide (x ≠ y))
  | _, _ => none

/-- Plain logical and (two ampersands in mapcalc): null if either operand is null. -/
def oand (a b : Option Bool) : Option Bool :=
  match a, b with
  | some x, some y => some (x && y)
  | _, _ => none

/-- Plain logical or (two pipes in mapcalc): null if either operand is null. -/
def oor (a b : Option Bool) : Option Bool :=
  match a, b with
  | some x, some y => some (x || y)
  | _, _ => none

/-- Null-absorbing logical and (three ampersands in mapcalc):
a false operand forces a false result even when the other operand is null. -/
def oand3 (a b : Option Bool) : Option Bool :=
  match a, b with
  | some false, _ => some false
  | _, some false => some false
  | some true, some true => some true
  | _, _ => none

/-- Null-absorbing logical or (three pipes in mapcalc):
a true operand forces a true result even when the other operand is null. -/
def oor3 (a b : Option Bool) : Option Bool :=
  match a, b with
  | some true, _ => some true
  | _, some true => some true
  | some false, some false => some false
  | _, _ => none

/-- The isnull() function of mapcalc: never null itself. -/
def oisnull (a : Option ℚ) : Option Bool :=
  some a.isNone

/-- The not() function of mapcalc, with null propagation. -/
def onot (a : Option Bool) : Option Bool :=
  a.map (fun x => !x)

/-- The if(cond, t, e) construct of mapcalc: a null condition yields null. -/
def cif (c : Option Bool) (t e : Option ℚ) : Option ℚ :=
  match c with
  | none => none
  | some true => t
  | some false => e

/-- An active GRASS MASK raster: output cells are null wherever the mask
raster is null; elsewhere the expression value is kept. -/
def underMask (m : Raster) (r : Raster) : Raster :=
  fun p => if (m p).isSome then r p else none

theorem oand_eq_some_true_iff (a b : Option Bool) :
    oand a b = some true ↔ a = some true ∧ b = some true := by
  rcases a with _ | x
  · simp [oand]
  · rcases b with _ | y
    · simp [oand]
    · cases x <;> cases y <;> simp [oand]

theorem oand3_eq_some_true_iff (a b : Option Bool) :
    oand3 a b = some true ↔ a = some true ∧ b = some true := by
  rcases a with _ | x
  · rcases b with _ | y
    · simp [oand3]
    · cases y <;> simp [oand3]
  · rcases b with _ | y
    · cases x <;> simp [oand3]
    · cases x <;> cases y <;> simp [oand3]

theorem cif_eq_none_of_ne_true (c : Option Bool) (t : Option ℚ)
    (h : c ≠ some true) : cif c t none = none := by
  rcases c with _ | x
  · rfl
  · cases x
    · rfl
    · exact absurd rfl h

theorem oisnull_eq_some_true_iff (a : Option ℚ) :
    oisnull a = some true ↔ a = none := by
  rcases a with _ | x <;> simp [oisnull]

end MC

/-!
## v.incora.training_data

Per-pixel embedding of the candidate class rasters and of the merge
of the training maps, following the r.mapcalc expressions built in
`main` of v.incora.training_data.py.  Input layers are abstract
rasters; the r.buffer outputs (roads_buf10, buildings_buf100,
water_buf, ...) are likewise taken as abstract rasters because the
buffering primitive is an external collaborator.
-/

open MC

/-- The brightness raster of the water step (source lines 310-321):
computed with the OSM water raster as active MASK, it holds 1 where
all three visible bands exceed the reflectance threshold 500 and is
null elsewhere. -/
def bright_rast (map_water red green blue : Raster) : Raster :=
  underMask map_water (fun p =>
    cif (oand (oand (ogt (red p) (some 500)) (ogt (green p) (some 500)))
          (ogt (blue p) (some 500)))
      (some 1) none)

/-- The water candidate raster (source lines 308-336), class code 30:
computed with the OSM water raster as active MASK, it requires
NDWI > 130, a null 10 m road buffer and a null brightness raster. -/
def water_tr (map_water ndwi roads_buf10 red green blue : Raster) : Raster :=
  underMask map_water (fun p =>
    cif (oand (oand (ogt (ndwi p) (some 130)) (oisnull (roads_buf10 p)))
          (oisnull (bright_rast map_water red green blue p)))
      (some 30) none)

/-- The built-up candidate raster (source lines 381-388), class code 40:
computed with the coastline raster as active MASK.  The conjuncts are
NDVI_max <= 200, null 50 m water buffer, landcover different from the
two agriculture codes 73 and 75, inside the 100 m building buffer or
(null-absorbing or) inside the 10 m road buffer, and (null-absorbing
and) elevation < 1000. -/
def builtup_tr (coastline ndvi_max map_water_buff landcover
    buildings_buf100 roads_buf10 elevation : Raster) : Raster :=
  underMask coastline (fun p =>
    cif
      (oand3
        (oand (oand (oand (oand
          (ole (ndvi_max p) (some 200))
          (oisnull (map_water_buff p)))
          (oneq (landcover p) (some 73)))
          (oneq (landcover p) (some 75)))
          (oor3 (ogt (buildings_buf100 p) (some 0))
                (ogt (roads_buf10 p) (some 0))))
        (olt (elevation p) (some 1000)))
      (some 40) none)

/-- The mixed built-up candidate raster (source lines 390-399), class
code 70: computed with the coastline raster as active MASK.  Its first
conjunct requires the built-up candidate raster to be null at the
pixel; the remaining conjuncts repeat the built-up conjuncts with the
NDVI_max ceiling relaxed from 200 to 220. -/
def builtup2_tr (coastline ndvi_max map_water_buff landcover
    buildings_buf100 roads_buf10 elevation : Raster) : Raster :=
  underMask coastline (fun p =>
    cif
      (oand3
        (oand (oand (oand (oand (oand
          (oisnull (builtup_tr coastline ndvi_max map_water_buff landcover
            buildings_buf100 roads_buf10 elevation p))
          (ole (ndvi_max p) (some 220)))
          (oisnull (map_water_buff p)))
          (oneq (landcover p) (some 73)))
          (oneq (landcover p) (some 75)))
          (oor3 (ogt (buildings_buf100 p) (some 0))
                (ogt (roads_buf10 p) (some 0))))
        (olt (elevation p) (some 1000)))
      (some 70) none)

/-- The claim-count raster tr_sum (source lines 482-485): the sum over
all training maps of if(isnull(map), 0, 1). -/
def tr_sum (tr_maps : List Raster) : Raster :=
  fun p => some (tr_maps.foldr
    (fun rast acc => (if (rast p).isSome then (1 : ℚ) else 0) + acc) 0)

/-- The validity mask tr_mask (source lines 489-493):
if(tr_sum == 1, 1, null()). -/
def tr_mask (tr_maps : List Raster) : Raster :=
  fun p => cif (oeq (tr_sum tr_maps p) (some 1)) (some 1) none

/-- r.patch: per pixel, the first non-null value among the maps, in
input order. -/
def r_patch : List Raster → Raster
  | [] => fun _ => none
  | rast :: rest => fun p =>
    match rast p with
    | some v => some v
    | none => r_patch rest p

/-- The merged training raster (source lines 495-508): r.patch of all
training maps run while tr_mask is the active MASK. -/
def training_patched (tr_maps : List Raster) : Raster :=
  underMask (tr_mask tr_maps) (r_patch tr_maps)

/-!
## r.incora.postproc

Per-pixel embedding of the reclassification passes of
r.incora.postproc.py.  No MASK is active in this module.
-/

/-- First corrector pass (source lines 88-97): the raster
water_elevation = if(dem > 1000 && classification == 30, 70, classification).
Per the source comment, high-altitude water pixels (mountain shadow)
are rebranded to the mixed class so that the following pass removes
them. -/
def water_elevation (dem raster_7classes : Raster) : Raster :=
  fun p =>
    cif (oand (ogt (dem p) (some 1000)) (oeq (raster_7classes p) (some 30)))
      (some 70) (raster_7classes p)

/-- Final corrector pass (source lines 180-185): the output raster
output = if(not(isnull(water)) && isnull(roads) && agr_corrected == 40,
30, agr_corrected).  Built-up pixels lying on the water layer and off
the roads layer are reassigned to the water class. -/
def postproc_output (water roads agr_corrected : Raster) : Raster :=
  fun p =>
    cif (oand (oand (onot (oisnull (water p))) (oisnull (roads p)))
          (oeq (agr_corrected p) (some 40)))
      (some 30) (agr_corrected p)

/-!
## r.incora.change

Per-pixel embedding of the gating and per-class change rasters of
r.incora.change.py, plus a trace model of the entry point used for
the input-validation property.
-/

/-- Gated change raster (source line 210):
outrast_cd = if(gainmap > gain_thresh, cd_temprast, 0). -/
def outrast_cd (gainmap cd_temprast : Raster) (gain_thresh : ℚ) : Raster :=
  fun p =>
    cif (ogt (gainmap p) (some gain_thresh)) (cd_temprast p) (some 0)

/-- Binary changed mask (source lines 213-216):
tempraster_1 = if(gainmap > gain_thresh && outrast_cd != 0, 1, null()). -/
def tempraster_1 (gainmap cd_temprast : Raster) (gain_thresh : ℚ) : Raster :=
  fun p =>
    cif (oand (ogt (gainmap p) (some gain_thresh))
          (oneq (outrast_cd gainmap cd_temprast gain_thresh p) (some 0)))
      (some 1) none

/-- Per-class change raster before area filtering (source lines 223-227):
tempraster_2 = if(tempraster_1 == 1 && t1 == value, 1,
if(tempraster_1 == 1 && t2 == value, 2, null())). -/
def tempraster_2 (changed_mask t1 t2 : Raster) (value : ℚ) : Raster :=
  fun p =>
    cif (oand (oeq (changed_mask p) (some 1)) (oeq (t1 p) (some value)))
      (some 1)
      (cif (oand (oeq (changed_mask p) (some 1)) (oeq (t2 p) (some value)))
        (some 2) none)

/-- r.reclass.area with mode=greater: connected components below the
area threshold are folded into no-data.  The set of surviving pixels
is abstracted by the predicate keep; the primitive never invents a
value at a no-data cell and never alters a surviving value. -/
def reclass_area_greater (keep : Pixel → Bool) (r : Raster) : Raster :=
  fun p => if keep p then r p else none

/-- A per-class change output as produced by the loop in source lines
217-237: the pre-filter raster tempraster_2 built over the changed
mask tempraster_1, then area-filtered. -/
def class_change_output (gainmap cd_temprast t1 t2 : Raster)
    (gain_thresh value : ℚ) (keep : Pixel → Bool) : Raster :=
  reclass_area_greater keep
    (tempraster_2 (tempraster_1 gainmap cd_temprast gain_thresh) t1 t2 value)

/-- Python str.split on a comma: splits a character list at every
comma; the empty input yields one empty field. -/
def split_commas : List Char → List Char → List (List Char)
  | [], acc => [acc.reverse]
  | c :: rest, acc =>
    if c = ',' then acc.reverse :: split_commas rest []
    else split_commas rest (c :: acc)

/-- The options record of r.incora.change (module option table in the
source header).  The input option is kept as a character list so that
the comma splitting of the entry point stays kernel-computable. -/
structure ChangeOptions where
  input : List Char
  output_cd : String
  output_water : String
  output_bu : String
  output_forest : String
  output_lowveg : String
  output_bare : String
  output_agr : String
  minsize : String
  mode_winsize : String
  gain_winsize : String
  gain_thresh : String
  flag_f : Bool

/-- One GRASS module invocation issued by the entry point of
r.incora.change (a side effect on the GRASS workspace). -/
inductive GrassCall
  | change_stats (inputs : List (List Char)) (output : String) (flags : String)
  | change_info (inputs : List (List Char)) (output : String) (size : String)
  | mapcalc_gate (output : String) (gainmap : String) (gain_thresh : String)
  | mapcalc_changed_mask (output : String) (gainmap : String)
      (gain_thresh : String)
  | mapcalc_class (output : String) (value : String)
  | reclass_area (input : String) (output : String) (value : String)

/-- Trace model of `main` of r.incora.change.py: the list of module
invocations issued, paired with the fatal message if the run aborts.
The split input is validated first (source lines 153-155); the
r.change.stats / r.change.info availability checks follow; only then
are raster commands issued, in source order. -/
def change_main (o : ChangeOptions) (find_program : String → Bool)
    (pid : String) : List GrassCall × Option String :=
  let input := split_commas o.input []
  if input.length ≠ 2 then
    ([], some "Input must consist of two raster maps")
  else
    let outrast_cd_name :=
      if o.output_cd ≠ "" then o.output_cd else "cd_rast_" ++ pid
    if ¬ find_program "r.change.stats" then
      ([], some "The r.change.stats module was not found, install it first")
    else if ¬ find_program "r.change.info" then
      ([], some "The r.change.info module was not found, install it first")
    else
      let cd_temprast := "cd_tempraster_" ++ pid
      let output_list := [o.output_forest, o.output_lowveg, o.output_water,
        o.output_bu, o.output_bare, o.output_agr]
      let values_list := ["10", "20", "30", "40", "50", "60"]
      let used := (output_list.zip values_list).filter
        (fun pr => pr.1.length > 0)
      let gainmap := "gainmap_" ++ pid
      let head_calls :=
        [GrassCall.change_stats input cd_temprast
          (if o.flag_f then "clf" else "cl"),
         GrassCall.change_info input gainmap o.gain_winsize]
      let tempraster_1_name := o.output_agr ++ "_tmp1_" ++ pid
      let gate_calls :=
        if used.length > 0 then
          [GrassCall.mapcalc_gate outrast_cd_name gainmap o.gain_thresh,
           GrassCall.mapcalc_changed_mask tempraster_1_name gainmap
             o.gain_thresh]
        else []
      let class_calls := used.foldr
        (fun pr acc =>
          GrassCall.mapcalc_class (pr.1 ++ "_tmp2_" ++ pid) pr.2 ::
          GrassCall.reclass_area (pr.1 ++ "_tmp2_" ++ pid) pr.1 o.minsize ::
          acc) []
      (head_calls ++ gate_calls ++ class_calls, none)

/-!
## Threshold resolver (get_percentile)

get_percentile in v.incora.training_data.py (source lines 154-165)
asks the external r.quantile primitive for a percentile of the input
raster restricted to the currently active MASK and parses the scalar
out of its output.  The quantile primitive is embedded as a concrete
nearest-rank computation over the masked cells of a finite pixel
domain, which fixes a well-defined interpolation rule.
-/

/-- The cell values of a raster restricted to the active mask, listed
over a finite pixel domain. -/
def masked_values (dom : List Pixel) (mask rast : Raster) : List ℚ :=
  dom.filterMap (fun p => if (mask p).isSome then rast p else none)

/-- Insert a value into a sorted list of rationals. -/
def insert_sorted (x : ℚ) : List ℚ → List ℚ
  | [] => [x]
  | y :: ys => if x ≤ y then x :: y :: ys else y :: insert_sorted x ys

/-- Insertion sort for lists of rationals. -/
def sort_rat : List ℚ → List ℚ
  | [] => []
  | x :: xs => insert_sorted x (sort_rat xs)

/-- get_percentile: the nearest-rank percentile of the raster values
under the active mask; none when the masked region holds no valid
cell. -/
def get_percentile (dom : List Pixel) (mask rast : Raster)
    (percentile : ℚ) : Option ℚ :=
  let s := sort_rat (masked_values dom mask rast)
  if s.length = 0 then none
  else s.get? (min (Int.toNat (percentile * s.length / 100).floor)
    (s.length - 1))

/-!
## Region and mask scoping (bare-soil step)

State model for the process-wide region and MASK settings of the
GRASS session, the operation sequence of the bare-soil step (source
lines 403-445) and the cleanup handler (source lines 134-151).  The
region is abstracted to a single numeric descriptor; raster-producing
commands do not touch region or mask.
-/

/-- The process-wide mutable GRASS session state: the active region
and the active MASK (none when no mask is set). -/
structure GrassState where
  region : ℕ
  mask : Option ℕ

/-- One operation of the pipeline as far as the session state is
concerned. -/
inductive GrassOp
  | set_mask_raster (m : ℕ)
  | remove_mask
  | set_region_res (res : ℕ)
  | set_region_saved
  | raster_op (name : String)

/-- Effect of one operation on the session state; saved is the region
stored under the name oldregion at the start of main (source lines
179-180). -/
def apply_op (saved : ℕ) (s : GrassState) : GrassOp → GrassState
  | GrassOp.set_mask_raster m => { s with mask := some m }
  | GrassOp.remove_mask => { s with mask := none }
  | GrassOp.set_region_res r => { s with region := r }
  | GrassOp.set_region_saved => { s with region := saved }
  | GrassOp.raster_op _ => s

/-- Run a list of operations from a state. -/
def run_ops (saved : ℕ) (s : GrassState) (ops : List GrassOp) : GrassState :=
  ops.foldl (apply_op saved) s

/-- The operation sequence of the bare-soil step, in source order
(lines 403-445): set the coastline mask, buffer the buildings, switch
the region to the coarser 100-unit resolution, buffer the
imperviousness layer, restore the saved region, compute and
area-filter the bare-soil candidate, remove the mask. -/
def baresoil_ops (coastline_id : ℕ) : List GrassOp :=
  [GrassOp.set_mask_raster coastline_id,
   GrassOp.raster_op "r.buffer buildings 50",
   GrassOp.set_region_res 100,
   GrassOp.raster_op "r.buffer imperviousness 100",
   GrassOp.set_region_saved,
   GrassOp.raster_op "r.mapcalc baresoil_tr_tmp",
   GrassOp.raster_op "r.reclass.area baresoil_tr",
   GrassOp.remove_mask]

/-- The cleanup handler (source lines 134-151): if a pre-existing MASK
was saved at startup it is reinstated, and the saved region is
restored.  Temporary-raster removal does not touch the session
state. -/
def cleanup_state (saved : ℕ) (oldmask : Option ℕ) (s : GrassState) :
    GrassState :=
  let s1 := match oldmask with
    | some m => { s with mask := some m }
    | none => s
  { s1 with region := saved }

/-!
## Theorems
-/

/-- Claim C2: disjointness of the built-up (40) and mixed built-up (70)
candidate rasters.  At every pixel at least one of the two candidates is
no-data, because the mixed built-up predicate conjoins the requirement
that the built-up candidate is null at the pixel. -/
theorem builtup_candidates_disjoint
    (coastline ndvi_max map_water_buff landcover
      buildings_buf100 roads_buf10 elevation : Raster) (p : Pixel) :
    builtup_tr coastline ndvi_max map_water_buff landcover
      buildings_buf100 roads_buf10 elevation p = none ∨
    builtup2_tr coastline ndvi_max map_water_buff landcover
      buildings_buf100 roads_buf10 elevation p = none := by
  by_cases h : builtup_tr coastline ndvi_max map_water_buff landcover
      buildings_buf100 roads_buf10 elevation p = none
  · exact Or.inl h
  · refine Or.inr ?_
    unfold builtup2_tr underMask
    by_cases hc : (coastline p).isSome
    · simp only [hc, if_true]
      apply cif_eq_none_of_ne_true
      intro hcond
      rw [oand3_eq_some_true_iff] at hcond
      obtain ⟨h1, -⟩ := hcond
      rw [oand_eq_some_true_iff] at h1
      obtain ⟨h1, -⟩ := h1
      rw [oand_eq_some_true_iff] at h1
      obtain ⟨h1, -⟩ := h1
      rw [oand_eq_some_true_iff] at h1
      obtain ⟨h1, -⟩ := h1
      rw [oand_eq_some_true_iff] at h1
      obtain ⟨h1, -⟩ := h1
      rw [oand_eq_some_true_iff] at h1
      obtain ⟨h1, -⟩ := h1
      rw [oisnull_eq_some_true_iff] at h1
      exact h h1
    · simp [hc]

/-- Claim C3 counterexample: the first corrector pass does not touch a
mixed built-up (70) pixel at elevation 1500, contradicting the claim
that such a pixel is reassigned to built-up (40); moreover the pass
does rewrite a water (30) pixel at elevation 1500 to 70, contradicting
the claim that all pixels other than high-elevation mixed built-up
keep their input class. -/
theorem water_elevation_counterexample :
    water_elevation (fun _ => some 1500) (fun _ => some 70) 0 = some 70 ∧
    water_elevation (fun _ => some 1500) (fun _ => some 70) 0 ≠ some 40 ∧
    water_elevation (fun _ => some 1500) (fun _ => some 30) 0 = some 70 ∧
    water_elevation (fun _ => some 1500) (fun _ => some 30) 0 ≠ some 30 := by
  refine ⟨?_, ?_, ?_, ?_⟩ <;> decide

/-- Claim C3 (amended): in the first corrector pass, every pixel with a
valid class and elevation is reassigned to the mixed built-up code (70)
exactly when it is classified water (30) at elevation > 1000, and keeps
its input class otherwise. -/
theorem water_elevation_amended (dem raster_7classes : Raster) (p : Pixel)
    (d c : ℚ) (hd : dem p = some d) (hc : raster_7classes p = some c) :
    water_elevation dem raster_7classes p =
      if 1000 < d ∧ c = 30 then some 70 else some c := by
  unfold water_elevation
  rw [hd, hc]
  by_cases h1 : (1000 : ℚ) < d <;> by_cases h2 : c = 30 <;>
    simp [ogt, oeq, oand, cif, h1, h2]

/-- Claim C3 witness: a water pixel at elevation 1500 is rewritten to
the mixed built-up code 70 by the first corrector pass. -/
theorem water_elevation_amended_witness :
    water_elevation (fun _ => some 1500) (fun _ => some 30) 1 = some 70 := by
  have h := water_elevation_amended (fun _ => some 1500) (fun _ => some 30)
    1 1500 30 rfl rfl
  rw [h]
  decide

/-- Claim C4 counterexample: a built-up (40) pixel that is on the water
layer and off the roads layer is reassigned to 30 (water) by the final
corrector pass, not to 60 (agriculture) as the claim states. -/
theorem postproc_output_counterexample :
    postproc_output (fun _ => some 1) (fun _ => none) (fun _ => some 40) 0
      = some 30 ∧
    postproc_output (fun _ => some 1) (fun _ => none) (fun _ => some 40) 0
      ≠ some 60 := by
  constructor <;> decide

/-- Claim C4 (amended): in the final corrector pass, every pixel that is
non-null in the water layer, null in the roads layer and currently
coded built-up (40) is reassigned to the water code (30); every other
pixel is unchanged from the previous pass. -/
theorem postproc_output_amended (water roads agr_corrected : Raster)
    (p : Pixel) :
    postproc_output water roads agr_corrected p =
      if (water p).isSome = true ∧ roads p = none ∧ agr_corrected p = some 40
      then some 30 else agr_corrected p := by
  unfold postproc_output
  rcases hw : water p with _ | w <;> rcases hr : roads p with _ | r <;>
    rcases ha : agr_corrected p with _ | a <;>
    simp [onot, oisnull, oand, oeq, cif, hw, hr, ha] <;>
    by_cases h40 : a = 40 <;> simp [h40]

/-- Claim C5: the confidence gate.  At every pixel where the
information-gain layer holds a value not exceeding the gain threshold,
the gated change raster is set to 0, the binary changed mask is
no-data, and every per-class change output is no-data, for any raw
change value and any area-filter outcome. -/
theorem change_gate_suppresses (gainmap cd_temprast t1 t2 : Raster)
    (gain_thresh value : ℚ) (keep : Pixel → Bool) (p : Pixel) (g : ℚ)
    (hg : gainmap p = some g) (hle : g ≤ gain_thresh) :
    outrast_cd gainmap cd_temprast gain_thresh p = some 0 ∧
    tempraster_1 gainmap cd_temprast gain_thresh p = none ∧
    class_change_output gainmap cd_temprast t1 t2 gain_thresh value keep p
      = none := by
  have hlt : ¬ (gain_thresh < g) := not_lt.mpr hle
  have h0 : outrast_cd gainmap cd_temprast gain_thresh p = some 0 := by
    unfold outrast_cd
    rw [hg]
    simp [ogt, cif, hlt]
  have h1 : tempraster_1 gainmap cd_temprast gain_thresh p = none := by
    unfold tempraster_1
    rw [hg, h0]
    simp [ogt, oand, oneq, cif, hlt]
  refine ⟨h0, h1, ?_⟩
  unfold class_change_output reclass_area_greater tempraster_2
  rw [h1]
  simp [oeq, oand, cif]

/-- Claim C5 witness: with information gain 0.3 at the pixel and
threshold 0.5, the gated raster holds 0 and both the changed mask and
the per-class output are no-data, although the raw change value is 5
and the area filter keeps every pixel. -/
theorem change_gate_suppresses_witness :
    outrast_cd (fun _ => some (3/10)) (fun _ => some 5) (5/10) 0 = some 0 ∧
    tempraster_1 (fun _ => some (3/10)) (fun _ => some 5) (5/10) 0 = none ∧
    class_change_output (fun _ => some (3/10)) (fun _ => some 5)
      (fun _ => some 10) (fun _ => some 20) (5/10) 10 (fun _ => true) 0
      = none :=
  change_gate_suppresses (fun _ => some (3/10)) (fun _ => some 5)
    (fun _ => some 10) (fun _ => some 20) (5/10) 10 (fun _ => true) 0
    (3/10) rfl (by norm_num)

/-- Claim C7: the change-detection entry point validates the split
input option first; when it names more or fewer than two raster maps
the run aborts fatally with no module invocation issued. -/
theorem change_input_validation (o : ChangeOptions)
    (find_program : String → Bool) (pid : String)
    (h : (split_commas o.input []).length ≠ 2) :
    change_main o find_program pid =
      ([], some "Input must consist of two raster maps") := by
  unfold change_main
  rw [if_pos h]

/-- Claim C7 witness: the input option naming three rasters aborts the
run before any module invocation. -/
theorem change_input_validation_witness :
    change_main
      { input := ['a', ',', 'b', ',', 'c'], output_cd := "",
        output_water := "", output_bu := "", output_forest := "",
        output_lowveg := "", output_bare := "", output_agr := "",
        minsize := "1.0", mode_winsize := "3", gain_winsize := "4",
        gain_thresh := "0.5", flag_f := false }
      (fun _ => true) "1234" =
      ([], some "Input must consist of two raster maps") :=
  change_input_validation _ _ _ (by decide)

/-- Claim C8: the threshold resolver is deterministic.  Two calls of
get_percentile on the same index layer under the same active mask
return the same scalar. -/
theorem get_percentile_deterministic (dom : List Pixel)
    (mask1 mask2 rast1 rast2 : Raster) (percentile : ℚ)
    (hm : mask1 = mask2) (hr : rast1 = rast2) :
    get_percentile dom mask1 rast1 percentile =
      get_percentile dom mask2 rast2 percentile := by
  rw [hm, hr]

/-- Claim C8 witness: two calls on an identical concrete layer and mask
agree. -/
theorem get_percentile_deterministic_witness :
    get_percentile [0, 1, 2] (fun _ => some 1) (fun _ => some 5) 50 =
      get_percentile [0, 1, 2] (fun _ => some 1) (fun _ => some 5) 50 :=
  get_percentile_deterministic [0, 1, 2] (fun _ => some 1) (fun _ => some 1)
    (fun _ => some 5) (fun _ => some 5) 50 rfl rfl

/-- Claim C9: region and mask scoping of the bare-soil step.  After the
region is switched to the coarse resolution for the imperviousness
buffer, the saved region is restored before the bare-soil mapcalc and
the area filter run, and it stays restored through the end of the
step; and if the run stops after any prefix of the step, the cleanup
handler leaves the region at its saved value and reinstates a
pre-existing mask. -/
theorem baresoil_region_scoping (saved coastline_id : ℕ)
    (oldmask : Option ℕ) (s0 : GrassState) (j : ℕ) :
    (run_ops saved s0 ((baresoil_ops coastline_id).take 5)).region = saved ∧
    (run_ops saved s0 ((baresoil_ops coastline_id).take 6)).region = saved ∧
    (run_ops saved s0 ((baresoil_ops coastline_id).take 7)).region = saved ∧
    (run_ops saved s0 (baresoil_ops coastline_id)).region = saved ∧
    (cleanup_state saved oldmask
      (run_ops saved s0 ((baresoil_ops coastline_id).take j))).region
      = saved ∧
    (∀ m, oldmask = some m →
      (cleanup_state saved oldmask
        (run_ops saved s0 ((baresoil_ops coastline_id).take j))).mask
        = some m) := by
  refine ⟨rfl, rfl, rfl, rfl, rfl, ?_⟩
  intro m hm
  subst hm
  rfl

/-- Claim C9 witness: with saved region 7 and a pre-existing mask 3, a
run that stops after four operations of the bare-soil step is cleaned
up to region 7 and mask 3, and the complete step ends with region 7. -/
theorem baresoil_region_scoping_witness :
    (cleanup_state 7 (some 3)
      (run_ops 7 ⟨0, none⟩ ((baresoil_ops 1).take 4))).mask = some 3 ∧
    (run_ops 7 ⟨0, none⟩ (baresoil_ops 1)).region = 7 := by
  constructor
  · exact (baresoil_region_scoping 7 1 (some 3) ⟨0, none⟩ 4).2.2.2.2.2 3 rfl
  · exact (baresoil_region_scoping 7 1 (some 3) ⟨0, none⟩ 4).2.2.2.1

/-- Case analysis of a mapcalc conditional with a null else branch. -/
theorem cif_some_or_none (c : Option Bool) (t : Option ℚ) :
    cif c t none = t ∨ cif c t none = none := by
  rcases c with _ | x
  · exact Or.inr rfl
  · cases x
    · exact Or.inr rfl
    · exact Or.inl rfl

/-- Claim C10: the water candidate raster is computed with the OSM
water raster as active MASK, so it holds a value (always the class
code 30) exactly where the OSM water layer is non-null, the NDWI
exceeds 130, the 10 m road buffer is null and the brightness raster is
null; in particular it assigns a value only inside the OSM water
layer. -/
theorem water_candidate_masked
    (map_water ndwi roads_buf10 red green blue : Raster) (p : Pixel) :
    (water_tr map_water ndwi roads_buf10 red green blue p = some 30 ↔
      (map_water p).isSome = true ∧
      (∃ w, ndwi p = some w ∧ 130 < w) ∧
      roads_buf10 p = none ∧
      bright_rast map_water red green blue p = none) ∧
    (water_tr map_water ndwi roads_buf10 red green blue p = some 30 ∨
     water_tr map_water ndwi roads_buf10 red green blue p = none) := by
  constructor
  · rcases hw : map_water p with _ | mw
    · simp [water_tr, underMask, hw]
    · rcases hn : ndwi p with _ | w
      · simp [water_tr, underMask, hw, hn, ogt, oand, oisnull, cif]
      · rcases hr : roads_buf10 p with _ | rv <;>
          rcases hb : bright_rast map_water red green blue p with _ | bv <;>
          by_cases hgt : (130 : ℚ) < w <;>
          simp [water_tr, underMask, hw, hn, hr, hb, hgt, ogt, oand,
            oisnull, cif]
  · unfold water_tr underMask
    by_cases hw : (map_water p).isSome
    · simp only [hw, if_true]
      exact cif_some_or_none _ _
    · simp [hw]

/-- The indicator sum built by the tr_sum expression equals the number
of training maps claiming the pixel. -/
theorem foldr_indicator_eq_countP (p : Pixel) (l : List Raster) :
    l.foldr (fun rast acc => (if (rast p).isSome then (1 : ℚ) else 0) + acc)
      0 = (l.countP (fun rast => (rast p).isSome) : ℚ) := by
  induction l with
  | nil => simp
  | cons a l ih =>
    rw [List.foldr_cons, ih, List.countP_cons]
    push_cast
    by_cases h : (a p).isSome <;> simp [h] <;> ring

/-- tr_sum computes the claim count of the pixel. -/
theorem tr_sum_eq_countP (tr_maps : List Raster) (p : Pixel) :
    tr_sum tr_maps p =
      some ((tr_maps.countP (fun rast => (rast p).isSome) : ℚ)) := by
  unfold tr_sum
  rw [foldr_indicator_eq_countP]

/-- r.patch on a list whose head is valid at the pixel returns the
head value. -/
theorem r_patch_cons_some (rast : Raster) (l : List Raster) (p : Pixel)
    (v : ℚ) (h : rast p = some v) : r_patch (rast :: l) p = some v := by
  simp only [r_patch, h]

/-- r.patch on a list whose head is null at the pixel falls through to
the tail. -/
theorem r_patch_cons_none (rast : Raster) (l : List Raster) (p : Pixel)
    (h : rast p = none) : r_patch (rast :: l) p = r_patch l p := by
  simp only [r_patch, h]

theorem r_patch_eq_of_unique (p : Pixel) :
    ∀ tr_maps : List Raster,
      tr_maps.countP (fun rast => (rast p).isSome) = 1 →
      ∀ r ∈ tr_maps, (r p).isSome = true → r_patch tr_maps p = r p := by
  intro tr_maps
  induction tr_maps with
  | nil =>
    intro h r hr
    simp at hr
  | cons a l ih =>
    intro hcount r hr hrp
    rw [List.countP_cons] at hcount
    rcases List.mem_cons.mp hr with rfl | hrl
    · rcases hap : r p with _ | v
      · rw [hap] at hrp
        simp at hrp
      · rw [r_patch_cons_some r l p v hap]
    · rcases hap : a p with _ | v
      · have hc1 : l.countP (fun rast => (rast p).isSome) = 1 := by
          simpa [hap] using hcount
        rw [r_patch_cons_none a l p hap]
        exact ih hc1 r hrl hrp
      · exfalso
        have hc0 : l.countP (fun rast => (rast p).isSome) = 0 := by
          simpa [hap] using hcount
        have hnone := List.countP_eq_zero.mp hc0 r hrl
        simp [hrp] at hnone

/-- Claim C1: mutual exclusivity of the merged training raster.  At a
pixel claimed by exactly one candidate map the merged raster holds
that single map's value; at a pixel claimed by zero or by two or more
candidate maps the merged raster is no-data. -/
theorem training_merge_exclusive (tr_maps : List Raster) (p : Pixel) :
    (tr_maps.countP (fun rast => (rast p).isSome) = 1 →
      ∀ r ∈ tr_maps, (r p).isSome = true →
        training_patched tr_maps p = r p) ∧
    (tr_maps.countP (fun rast => (rast p).isSome) ≠ 1 →
      training_patched tr_maps p = none) := by
  constructor
  · intro h1 r hr hrp
    unfold training_patched underMask
    have hmask : tr_mask tr_maps p = some 1 := by
      unfold tr_mask
      rw [tr_sum_eq_countP, h1]
      simp [oeq, cif]
    rw [hmask]
    simp only [Option.isSome_some, if_true]
    exact r_patch_eq_of_unique p tr_maps h1 r hr hrp
  · intro h1
    unfold training_patched underMask
    have hcast : ((tr_maps.countP (fun rast => (rast p).isSome) : ℕ) : ℚ)
        ≠ 1 := by
      exact_mod_cast h1
    have hmask : tr_mask tr_maps p = none := by
      unfold tr_mask
      rw [tr_sum_eq_countP]
      simp [oeq, cif, hcast]
    rw [hmask]
    simp

/-- Claim C1 witness: a single candidate map claiming the pixel gives a
merged value equal to that map's class code, and an empty candidate
list gives no-data. -/
theorem training_merge_exclusive_witness :
    training_patched [fun _ => some 10] 0 = some 10 ∧
    training_patched [] 0 = none := by
  constructor
  · exact (training_merge_exclusive [fun _ => some 10] 0).1 rfl
      (fun _ => some 10) (by simp) rfl
  · exact (training_merge_exclusive [] 0).2 (by simp)

/-- Claim C6 counterexample: a pixel in the changed mask whose time-1
and time-2 rasters both hold the requested class 10 gets the value 1,
not the value 2 demanded by the claim for every in-mask pixel where
the time-2 raster holds the class. -/
theorem change_direction_counterexample :
    tempraster_2 (fun _ => some 1) (fun _ => some 10) (fun _ => some 10)
      10 0 = some 1 ∧
    tempraster_2 (fun _ => some 1) (fun _ => some 10) (fun _ => some 10)
      10 0 ≠ some 2 := by
  constructor <;> decide

/-- Claim C6 (amended): for each requested class, the per-class change
raster before area filtering holds 1 exactly at the pixels of the
changed mask where the time-1 raster holds the class, holds 2 exactly
at the pixels of the changed mask where the time-2 raster holds the
class while the time-1 raster holds a different valid class (the
time-1 branch of the conditional takes precedence), and is no-data
everywhere else. -/
theorem change_direction_encoding (changed_mask t1 t2 : Raster)
    (value : ℚ) (p : Pixel) :
    (tempraster_2 changed_mask t1 t2 value p = some 1 ↔
      changed_mask p = some 1 ∧ t1 p = some value) ∧
    (tempraster_2 changed_mask t1 t2 value p = some 2 ↔
      changed_mask p = some 1 ∧ t2 p = some value ∧
        ∃ w, t1 p = some w ∧ w ≠ value) ∧
    (tempraster_2 changed_mask t1 t2 value p = none ↔
      ¬(changed_mask p = some 1 ∧ t1 p = some value) ∧
      ¬(changed_mask p = some 1 ∧ t2 p = some value ∧
        ∃ w, t1 p = some w ∧ w ≠ value)) := by
  rcases hm : changed_mask p with _ | m
  · rcases h1 : t1 p with _ | a <;> rcases h2 : t2 p with _ | b <;>
      simp [tempraster_2, oeq, oand, cif, hm, h1, h2]
  · by_cases hm1 : m = 1
    · subst hm1
      rcases h1 : t1 p with _ | a
      · rcases h2 : t2 p with _ | b <;>
          simp [tempraster_2, oeq, oand, cif, hm, h1, h2]
      · by_cases hav : a = value
        · subst hav
          rcases h2 : t2 p with _ | b
          · simp [tempraster_2, oeq, oand, cif, hm, h1, h2]
          · by_cases hbv : b = a <;>
              simp [tempraster_2, oeq, oand, cif, hm, h1, h2, hbv]
        · rcases h2 : t2 p with _ | b
          · simp [tempraster_2, oeq, oand, cif, hm, h1, h2, hav]
          · by_cases hbv : b = value <;>
              simp [tempraster_2, oeq, oand, cif, hm, h1, h2, hav, hbv]
    · rcases h1 : t1 p with _ | a <;> rcases h2 : t2 p with _ | b <;>
        simp [tempraster_2, oeq, oand, cif, hm, h1, h2, hm1]
